import Mathlib

set_option autoImplicit false

/-!
Verification development for the constrained JSON value trees of
serde-json-extensions: a shallow embedding of the value types
(`ScalarValue`, `ValueNoObjOrArr`, `ValueNoObj`), their value builders
(generic Serializers), map-key encoder, key classifier, and value-backed
deserializer, together with theorems about the frozen behavioural claims.

External collaborators (the serde protocol, `serde_json::Number`, the ryu
float formatter, the from-text parser) are represented through their
interfaces: numbers as a normalized integer/float sum, floats by what the
code observes of them (finiteness plus the finite value), the formatter and
the parser as function parameters.
-/

namespace SerdeJsonExt

/-- Shallow model of an `f64` (and `f32`) input as the conversion layer
observes one: the code only ever asks `is_finite` and hands finite values to
`Number::from_f64` / the ryu formatter, so a float is NaN, an infinity with a
sign, or a finite value (carried as the exact rational it denotes). -/
inductive F64 where
  | nan : F64
  | inf : Bool → F64
  | finite : Rat → F64
deriving DecidableEq

/-- Rust `f64::is_finite` / `f32::is_finite`. -/
def F64.isFinite : F64 → Bool
  | .finite _ => true
  | _ => false

/-- `serde_json::Number` (external collaborator, consumed through its
interface): a non-negative integer (`PosInt(u64)`), a negative integer
(`NegInt(i64)`), or a finite float (`Float(f64)`); under the
arbitrary-precision capability the integer cases may exceed 64 bits.
Equality is structural, as for the external type's `PartialEq` on this
normalized representation. -/
inductive JNumber where
  | posInt : Nat → JNumber
  | negInt : Int → JNumber
  | float : Rat → JNumber
deriving DecidableEq

/-- `impl From<i64> for Number`: non-negative values normalize to `PosInt`. -/
def JNumber.fromI64 (v : Int) : JNumber :=
  if 0 ≤ v then .posInt v.toNat else .negInt v

/-- `impl From<u64> for Number` (also used for `u8`/`u16`/`u32` after widening). -/
def JNumber.fromU64 (n : Nat) : JNumber :=
  .posInt n

/-- `impl From<i128> for Number` (arbitrary-precision capability). -/
def JNumber.fromI128 (v : Int) : JNumber :=
  if 0 ≤ v then .posInt v.toNat else .negInt v

/-- `impl From<u128> for Number` (arbitrary-precision capability). -/
def JNumber.fromU128 (n : Nat) : JNumber :=
  .posInt n

/-- `Number::from_f64` (and `from_f32`): `None` for a NaN or infinite float,
`Some(Number)` for a finite one. -/
def JNumber.fromF64 (x : F64) : Option JNumber :=
  match x with
  | .finite q => some (.float q)
  | _ => none

/-- `Number::from_f32`: same finiteness gate as `from_f64` (the value is
widened to `f64` first, which preserves the denoted value exactly). -/
def JNumber.fromF32 (x : F64) : Option JNumber :=
  match x with
  | .finite q => some (.float q)
  | _ => none

/-- `serde::de::Unexpected`: the observed-shape tag carried by an
invalid-type error. -/
inductive Unexpected where
  | bool : Bool → Unexpected
  | unit : Unexpected
  | map : Unexpected
  | newtypeStruct : Unexpected
  | unitVariant : Unexpected
  | str : String → Unexpected
  | signed : Int → Unexpected
  | unsigned : Nat → Unexpected
  | float : Rat → Unexpected
  | other : String → Unexpected
deriving DecidableEq

/-- `Number::unexpected()`: the observed-shape tag of a number. -/
def JNumber.unexpected : JNumber → Unexpected
  | .posInt n => .unsigned n
  | .negInt n => .signed n
  | .float q => .float q

/-- `ErrorCode` variants reached by the conversion layer
(`Error::syntax(code, 0, 0)`). -/
inductive ErrorCode where
  | numberOutOfRange : ErrorCode
  | keyMustBeAString : ErrorCode
  | floatKeyMustBeFinite : ErrorCode
  | invalidNumber : ErrorCode
  | expectedSomeValue : ErrorCode
deriving DecidableEq

/-- The error type of the conversion layer: an `Error::syntax(code, 0, 0)`
value, a `serde::de::Error::invalid_type(unexpected, &expected)` value (the
expected-shape text kept verbatim), a custom message, or the
explicitly-documented `expect` abort of an escape-hatch map that ended
without its one field. -/
inductive Error where
  | code : ErrorCode → Error
  | invalidType : Unexpected → String → Error
  | custom : String → Error
  | panicExpect : String → Error
deriving DecidableEq

/-- `ScalarValue` (src/scalar_value/scalar_value.rs): the Scalar shape,
`Null | Bool | Number | String`. -/
inductive ScalarValue where
  | null : ScalarValue
  | bool : Bool → ScalarValue
  | number : JNumber → ScalarValue
  | str : String → ScalarValue
deriving DecidableEq

/-- `ValueNoObjOrArr`: the Scalar-only shape's second realization,
`Null | Bool | Number | String` (variants as matched exhaustively by
src/value_no_obj_or_arr/de.rs). -/
inductive ValueNoObjOrArr where
  | null : ValueNoObjOrArr
  | bool : Bool → ValueNoObjOrArr
  | number : JNumber → ValueNoObjOrArr
  | str : String → ValueNoObjOrArr
deriving DecidableEq

/-- `ValueNoObj`: the Scalar-or-Array shape,
`Null | Bool | Number | String | Array(Vec<Self>)` (variants as matched
exhaustively by the `Serialize` impl in src/value_no_obj/ser.rs). -/
inductive ValueNoObj where
  | null : ValueNoObj
  | bool : Bool → ValueNoObj
  | number : JNumber → ValueNoObj
  | str : String → ValueNoObj
  | array : List ValueNoObj → ValueNoObj

/-- `ValueNoObjOrArr::unexpected` (src/value_no_obj_or_arr/de.rs). -/
def ValueNoObjOrArr.unexpected : ValueNoObjOrArr → Unexpected
  | .null => .unit
  | .bool b => .bool b
  | .number n => n.unexpected
  | .str s => .str s

/-- `KeyClass` (src/common/de.rs and src/value_no_obj_or_arr/de.rs): the
classification of a map key read during generic deserialization. The
`number` and `rawValue` cases exist only under their capability flags;
classification yields them only when the flag is on. -/
inductive KeyClass where
  | map : String → KeyClass
  | number : KeyClass
  | rawValue : KeyClass
deriving DecidableEq

/-- The generic serialization data model (serde's `Serialize` side, external
collaborator): one self-description of an arbitrary input, naming which
`Serializer` entry point the input invokes and with what payload. Integer
widths below 64 bits reach the builders only after the width-forwarding
entry points (`serialize_i8` .. `serialize_i32` forward to `serialize_i64`,
unsigned alike), so they are carried by the 64-bit cases. -/
inductive GenValue where
  | bool : Bool → GenValue
  | i64 : Int → GenValue
  | u64 : Nat → GenValue
  | i128 : Int → GenValue
  | u128 : Nat → GenValue
  | f32 : F64 → GenValue
  | f64 : F64 → GenValue
  | char : Char → GenValue
  | str : String → GenValue
  | bytes : List Nat → GenValue
  | unit : GenValue
  | unitStruct : String → GenValue
  | unitVariant : String → Nat → String → GenValue
  | newtypeStruct : String → GenValue → GenValue
  | newtypeVariant : String → Nat → String → GenValue → GenValue
  | optNone : GenValue
  | optSome : GenValue → GenValue
  | seq : List GenValue → GenValue
  | tuple : List GenValue → GenValue
  | tupleStruct : String → List GenValue → GenValue
  | tupleVariant : String → Nat → String → List GenValue → GenValue
  | map : List (GenValue × GenValue) → GenValue
  | struct : String → List (String × GenValue) → GenValue
  | structVariant : String → Nat → String → List (String × GenValue) → GenValue

/-! ## Key Classifier (src/common/de.rs)

The sentinel tokens `crate::number::TOKEN` and `crate::raw::TOKEN` live in
modules outside the given sources, so every definition takes them as
parameters (`tokNum`, `tokRaw`); the feature flags `arbitrary_precision` and
`raw_value` are the booleans `ap` and `raw`. -/

/-- `KeyClassifier::visit_str` (src/common/de.rs): match the borrowed key
against the capability-gated sentinel tokens, otherwise an ordinary key
carrying an owned copy of the string. Always returns `Ok`. -/
def keyClassifierVisitStr (ap raw : Bool) (tokNum tokRaw : String)
    (s : String) : Except Error KeyClass :=
  if ap = true ∧ s = tokNum then .ok .number
  else if raw = true ∧ s = tokRaw then .ok .rawValue
  else .ok (.map s)

/-- `KeyClassifier::visit_string` (src/common/de.rs): match the owned key
(via `as_str`) against the capability-gated sentinel tokens, otherwise an
ordinary key taking the string itself. Always returns `Ok`. -/
def keyClassifierVisitString (ap raw : Bool) (tokNum tokRaw : String)
    (s : String) : Except Error KeyClass :=
  if ap = true ∧ s = tokNum then .ok .number
  else if raw = true ∧ s = tokRaw then .ok .rawValue
  else .ok (.map s)

/-- The `KeyClassifier::visit_str` copy local to src/value_no_obj_or_arr/de.rs
(textually the same classifier). -/
def vnoaKeyClassifierVisitStr (ap raw : Bool) (tokNum tokRaw : String)
    (s : String) : Except Error KeyClass :=
  if ap = true ∧ s = tokNum then .ok .number
  else if raw = true ∧ s = tokRaw then .ok .rawValue
  else .ok (.map s)

/-! ## ValueNoObjOrArr: float conversions and builder entry points
(src/value_no_obj_or_arr/from.rs, src/value_no_obj_or_arr/ser.rs) -/

/-- `impl From<f64> for ValueNoObjOrArr`: `Number::from_f64(f).map_or(Null, Number)`. -/
def vnoaFromF64 (x : F64) : ValueNoObjOrArr :=
  (JNumber.fromF64 x).elim .null .number

/-- `impl From<f32> for ValueNoObjOrArr`: `Number::from_f32(f).map_or(Null, Number)`. -/
def vnoaFromF32 (x : F64) : ValueNoObjOrArr :=
  (JNumber.fromF32 x).elim .null .number

/-- `Serializer::serialize_i64` for the `ValueNoObjOrArr` builder. -/
def vnoaSerializeI64 (v : Int) : Except Error ValueNoObjOrArr :=
  .ok (.number (.fromI64 v))

/-- `Serializer::serialize_i32` for the `ValueNoObjOrArr` builder:
forwards `value as i64`. -/
def vnoaSerializeI32 (v : Int) : Except Error ValueNoObjOrArr :=
  vnoaSerializeI64 v

/-- `Serializer::serialize_i128` for the `ValueNoObjOrArr` builder
(src/value_no_obj_or_arr/ser.rs lines 84-100): with the arbitrary-precision
capability, always a `Number`; without it, try `u64::try_from`, then
`i64::try_from`, else `NumberOutOfRange`. -/
def vnoaSerializeI128 (ap : Bool) (v : Int) : Except Error ValueNoObjOrArr :=
  if ap then .ok (.number (.fromI128 v))
  else if 0 ≤ v ∧ v < 2 ^ 64 then .ok (.number (.fromU64 v.toNat))
  else if -2 ^ 63 ≤ v ∧ v < 2 ^ 63 then .ok (.number (.fromI64 v))
  else .error (.code .numberOutOfRange)

/-- `Serializer::serialize_u128` for the `ValueNoObjOrArr` builder
(src/value_no_obj_or_arr/ser.rs lines 122-136): with the capability, always a
`Number`; without it, only when `u64::try_from` succeeds, else
`NumberOutOfRange`. -/
def vnoaSerializeU128 (ap : Bool) (v : Nat) : Except Error ValueNoObjOrArr :=
  if ap then .ok (.number (.fromU128 v))
  else if v < 2 ^ 64 then .ok (.number (.fromU64 v))
  else .error (.code .numberOutOfRange)

/-- `Serializer::serialize_f64` for the `ValueNoObjOrArr` builder:
`Ok(ValueNoObjOrArr::from(float))`. -/
def vnoaSerializeF64 (x : F64) : Except Error ValueNoObjOrArr :=
  .ok (vnoaFromF64 x)

/-- `Serializer::serialize_f32` for the `ValueNoObjOrArr` builder. -/
def vnoaSerializeF32 (x : F64) : Except Error ValueNoObjOrArr :=
  .ok (vnoaFromF32 x)

/-- The collection state `SerializeVec` of the `ValueNoObjOrArr` builder:
`Vec::with_capacity(cap)` starts empty; the field `cap` records the reserved
capacity, `vec` the collected elements. -/
structure VnoaSerializeVec where
  cap : Nat
  vec : List ValueNoObjOrArr
deriving DecidableEq

/-- `Serializer::serialize_seq` for the `ValueNoObjOrArr` builder
(src/value_no_obj_or_arr/ser.rs lines 201-205): returns
`Ok(SerializeVec { vec: Vec::with_capacity(len.unwrap_or(0)) })`, beginning
element collection. -/
def vnoaSerializeSeq (len : Option Nat) : Except Error VnoaSerializeVec :=
  .ok ⟨len.getD 0, []⟩

/-- `Serializer::serialize_tuple` for the `ValueNoObjOrArr` builder:
`self.serialize_seq(Some(len))`. -/
def vnoaSerializeTuple (len : Nat) : Except Error VnoaSerializeVec :=
  vnoaSerializeSeq (some len)

/-- `Serializer::serialize_tuple_struct` for the `ValueNoObjOrArr` builder:
`self.serialize_seq(Some(len))`. -/
def vnoaSerializeTupleStruct (_name : String) (len : Nat) :
    Except Error VnoaSerializeVec :=
  vnoaSerializeSeq (some len)

/-- The collection state `SerializeTupleVariant` of the `ValueNoObjOrArr`
builder: keeps the variant name and the collected fields. -/
structure VnoaSerializeTupleVariant where
  name : String
  vec : List ValueNoObjOrArr
deriving DecidableEq

/-- `Serializer::serialize_tuple_variant` for the `ValueNoObjOrArr` builder
(src/value_no_obj_or_arr/ser.rs lines 219-230): returns
`Ok(SerializeTupleVariant { name, vec: Vec::with_capacity(len) })`. The
sources provide no `impl serde::ser::SerializeTupleVariant` completing this
state into a `ValueNoObjOrArr`. -/
def vnoaSerializeTupleVariant (variant : String) (_len : Nat) :
    Except Error VnoaSerializeTupleVariant :=
  .ok ⟨variant, []⟩

/-! ## Map-Key Encoder: float keys

Finite floats are rendered by `ryu::Buffer::format_finite`, the external
shortest-round-trip decimal formatter; it is passed in as the parameter
`fmt`. -/

/-- `MapKeySerializer::serialize_f64` of src/value_no_obj/ser.rs (lines
517-523): a finite float key renders through the shortest-round-trip
formatter, any other float key fails with `FloatKeyMustBeFinite`. -/
def vnoMapKeySerializeF64 (fmt : Rat → String) (x : F64) : Except Error String :=
  match x with
  | .finite q => .ok (fmt q)
  | _ => .error (.code .floatKeyMustBeFinite)

/-- `MapKeySerializer::serialize_f64` of src/value_no_obj_or_arr/ser.rs
(lines 411-417): the same finite gate and formatter. -/
def vnoaMapKeySerializeF64 (fmt : Rat → String) (x : F64) : Except Error String :=
  match x with
  | .finite q => .ok (fmt q)
  | _ => .error (.code .floatKeyMustBeFinite)

/-- `MapKeySerializer::serialize_f32` of src/value_no_obj/ser.rs (lines
509-515), same gate through the `f32` formatter. -/
def vnoMapKeySerializeF32 (fmt : Rat → String) (x : F64) : Except Error String :=
  match x with
  | .finite q => .ok (fmt q)
  | _ => .error (.code .floatKeyMustBeFinite)

/-! ## ValueNoObjOrArr: value-backed deserializer (src/value_no_obj_or_arr/de.rs) -/

/-- `Deserializer::deserialize_enum` for an owned `ValueNoObjOrArr` (lines
196-216): a `String` node becomes the variant identifier with no payload
(`value = None`); any other node is an invalid-type error expecting
"string or map". -/
def vnoaDeserializeEnum (v : ValueNoObjOrArr) :
    Except Error (String × Option ValueNoObjOrArr) :=
  match v with
  | .str variant => .ok (variant, none)
  | other => .error (.invalidType other.unexpected "string or map")

/-- Deserialization of the unit type from a `ValueNoObjOrArr`
(`deserialize_unit`):
`Null` succeeds, anything else is an invalid-type error. Used by
`unit_variant` when a payload is present. -/
def vnoaDeserializeUnit (v : ValueNoObjOrArr) : Except Error Unit :=
  match v with
  | .null => .ok ()
  | other => .error (.invalidType other.unexpected "unit")

/-- `VariantDeserializer::unit_variant` (lines 413-418): no payload
succeeds; a payload value is re-deserialized as `()`. -/
def vnoaUnitVariant (value : Option ValueNoObjOrArr) : Except Error Unit :=
  match value with
  | some v => vnoaDeserializeUnit v
  | none => .ok ()

/-- `ValueVisitor::visit_f64` for `ValueNoObjOrArr` (src/value_no_obj_or_arr/de.rs
lines 51-53): `Number::from_f64(value).map_or(Null, Number)`, always `Ok`. -/
def vnoaVisitF64 (x : F64) : Except Error ValueNoObjOrArr :=
  .ok ((JNumber.fromF64 x).elim .null .number)

/-- `ValueVisitor::visit_map` for `ValueNoObjOrArr`
(src/value_no_obj_or_arr/de.rs lines 89-112). The map input is its entry
list (each key already read as a string, classified by the local
`KeyClassifier`); the sentinel payload readers (`next_value` as
`NumberFromString`, `next_value_seed(BoxedFromString)` plus re-parse) live
outside the given sources and are parameters. No entry at all takes the
`None` arm; an ordinary first key takes the `KeyClass::Map` arm. -/
def vnoaVisitMap (ap raw : Bool) (tokNum tokRaw : String)
    (readNumber readRawValue : GenValue → Except Error ValueNoObjOrArr)
    (entries : List (String × GenValue)) : Except Error ValueNoObjOrArr :=
  match entries with
  | [] => .error (.invalidType (.other "") "must provide non-array | non-object")
  | (k, v) :: _ =>
    match vnoaKeyClassifierVisitStr ap raw tokNum tokRaw k with
    | .error e => .error e
    | .ok .number => readNumber v
    | .ok .rawValue => readRawValue v
    | .ok (.map _first_key) => .error (.invalidType .map "non map")

/-! ## ScalarValue: generic Serialize binding and map deserialization
(src/scalar_value/scalar_value.rs, src/scalar_value/de.rs) -/

/-- The structural correspondence between the two realizations of the Scalar
shape: `ScalarValue` and `ValueNoObjOrArr` carry the same four variants. -/
def scalarToVnoa : ScalarValue → ValueNoObjOrArr
  | .null => .null
  | .bool b => .bool b
  | .number n => .number n
  | .str s => .str s

/-- `impl serde::Serialize for ScalarValue` (src/scalar_value/scalar_value.rs
lines 53-65), driven against the Scalar shape's value builder (the
`ValueNoObjOrArr` Serializer): `Null` emits `serialize_none`, `Bool`
`serialize_bool`, `String` `serialize_str` — and `Number(n)` emits
`serialize_i32(n.into())`, narrowing the number through a 32-bit signed
channel. No `From<&Number> for i32` exists among the collaborators, so the
narrowing is the parameter `conv`, constrained to the `i32` range where a
theorem needs it. -/
def scalarValueSerializeVnoa (conv : JNumber → Int) :
    ScalarValue → Except Error ValueNoObjOrArr
  | .null => .ok .null
  | .bool b => .ok (.bool b)
  | .number n => vnoaSerializeI32 (conv n)
  | .str s => .ok (.str s)

/-- What `ValueVisitor::visit_map` for `ScalarValue` (src/scalar_value/de.rs
lines 77-104) constructs: either a genuine `ScalarValue`, or — in the
`KeyClass::Map(first_key)` and `None` arms — `ScalarValue::Object(values)`,
an object-carrying result built from a variant the `ScalarValue` enum of
src/scalar_value/scalar_value.rs does not declare; the `object` case records
that attempt (its payload keeps the collected entries, whose values the code
reads as external `serde_json::Value`s and which are kept here as the raw
generic input). -/
inductive ScalarVisitMapOut where
  | value : ScalarValue → ScalarVisitMapOut
  | object : List (String × GenValue) → ScalarVisitMapOut

/-- `ValueVisitor::visit_map` for `ScalarValue` (src/scalar_value/de.rs lines
77-104): the first key is classified by the `KeyClassifier` (src/common/de.rs);
a sentinel key routes to its payload reader (a parameter, the reader living
outside the given sources); an ordinary first key collects all entries into
`ScalarValue::Object(values)`; no entry at all yields
`ScalarValue::Object(Map::new())`. -/
def scalarVisitMap (ap raw : Bool) (tokNum tokRaw : String)
    (readNumber : GenValue → Except Error JNumber)
    (readRawValue : GenValue → Except Error ScalarVisitMapOut)
    (entries : List (String × GenValue)) : Except Error ScalarVisitMapOut :=
  match entries with
  | [] => .ok (.object [])
  | (k, v) :: rest =>
    match keyClassifierVisitStr ap raw tokNum tokRaw k with
    | .error e => .error e
    | .ok .number => (readNumber v).map (fun n => .value (.number n))
    | .ok .rawValue => readRawValue v
    | .ok (.map first_key) => .ok (.object ((first_key, v) :: rest))

/-- `ValueVisitor::visit_f64` for `ScalarValue` (src/scalar_value/de.rs lines
41-43): `Number::from_f64(value).map_or(ScalarValue::Null, ScalarValue::Number)`. -/
def scalarVisitF64 (x : F64) : Except Error ScalarValue :=
  .ok ((JNumber.fromF64 x).elim .null .number)

/-! ## ValueNoObj: conversions and the full value builder
(src/value_no_obj/from.rs, src/value_no_obj/ser.rs) -/

/-- `impl From<f64> for ValueNoObj`: `Number::from_f64(f).map_or(Null, Number)`. -/
def vnoFromF64 (x : F64) : ValueNoObj :=
  (JNumber.fromF64 x).elim .null .number

/-- `impl From<f32> for ValueNoObj`: `Number::from_f32(f).map_or(Null, Number)`. -/
def vnoFromF32 (x : F64) : ValueNoObj :=
  (JNumber.fromF32 x).elim .null .number

/-- `Serializer::serialize_i128` for the `ValueNoObj` builder
(src/value_no_obj/ser.rs lines 87-103): with the arbitrary-precision
capability, always a `Number`; without it, try `u64::try_from`, then
`i64::try_from`, else `NumberOutOfRange`. -/
def vnoSerializeI128 (ap : Bool) (v : Int) : Except Error ValueNoObj :=
  if ap then .ok (.number (.fromI128 v))
  else if 0 ≤ v ∧ v < 2 ^ 64 then .ok (.number (.fromU64 v.toNat))
  else if -2 ^ 63 ≤ v ∧ v < 2 ^ 63 then .ok (.number (.fromI64 v))
  else .error (.code .numberOutOfRange)

/-- `Serializer::serialize_u128` for the `ValueNoObj` builder
(src/value_no_obj/ser.rs lines 125-139): with the capability, always a
`Number`; without it, only when `u64::try_from` succeeds, else
`NumberOutOfRange`. -/
def vnoSerializeU128 (ap : Bool) (v : Nat) : Except Error ValueNoObj :=
  if ap then .ok (.number (.fromU128 v))
  else if v < 2 ^ 64 then .ok (.number (.fromU64 v))
  else .error (.code .numberOutOfRange)

/-- `Serializer::serialize_f64` for the `ValueNoObj` builder:
`Ok(ValueNoObj::from(float))`. -/
def vnoSerializeF64 (x : F64) : Except Error ValueNoObj :=
  .ok (vnoFromF64 x)

/-- `Serializer::serialize_f32` for the `ValueNoObj` builder. -/
def vnoSerializeF32 (x : F64) : Except Error ValueNoObj :=
  .ok (vnoFromF32 x)

/-- The error helper `key_must_be_a_string()` of the map-key encoders. -/
def key_must_be_a_string : Error :=
  .code .keyMustBeAString

/-- The error helper `invalid_number()` of the arbitrary-precision emitters. -/
def invalid_number : Error :=
  .code .invalidNumber

/-- The error helper `invalid_raw_value()` of the raw-value emitters. -/
def invalid_raw_value : Error :=
  .code .expectedSomeValue

/-- `MapKeySerializer` of src/value_no_obj/ser.rs as one dispatch over the
generic protocol: unit variants and the string-like primitives render to
their text (integers and booleans through `to_string`, floats through the
finite-only shortest-round-trip formatters), 128-bit integers keep serde's
default rejection, and every compound shape fails with
`key_must_be_a_string`. -/
def vnoMapKeySerialize (fmt32 fmt64 : Rat → String) : GenValue → Except Error String
  | .unitVariant _ _ variant => .ok variant
  | .newtypeStruct _ value => vnoMapKeySerialize fmt32 fmt64 value
  | .bool value => .ok (toString value)
  | .i64 value => .ok (toString value)
  | .u64 value => .ok (toString value)
  | .i128 _ => .error (.custom "i128 is not supported")
  | .u128 _ => .error (.custom "u128 is not supported")
  | .f32 value => vnoMapKeySerializeF32 fmt32 value
  | .f64 value => vnoMapKeySerializeF64 fmt64 value
  | .char value => .ok (String.singleton value)
  | .str value => .ok value
  | _ => .error key_must_be_a_string

/-- `NumberValueNoObjEmitter` (src/value_no_obj/ser.rs lines 703-864): only a
string primitive is accepted, parsed as a `Number` (the external string-based
constructor is the parameter `parseNumber`); every other entry point fails
with `invalid_number`. -/
def vnoNumberValueEmitter (parseNumber : String → Except Error JNumber) :
    GenValue → Except Error ValueNoObj
  | .str value => (parseNumber value).map .number
  | _ => .error invalid_number

/-- `RawValueNoObjEmitter` (src/value_no_obj/ser.rs lines 874-1041): only a
string primitive is accepted, fully re-parsed through the from-text entry
point (the parameter `fromStr`); every other entry point fails with
`invalid_raw_value` (the `ExpectedSomeValue` code). -/
def vnoRawValueEmitter (fromStr : String → Except Error ValueNoObj) :
    GenValue → Except Error ValueNoObj
  | .str value => fromStr value
  | _ => .error invalid_raw_value

/-- The field loop of `SerializeStruct::serialize_field` for the
`SerializeMap::Number` state (src/value_no_obj/ser.rs lines 637-645): each
field key must equal the number sentinel token, its value goes through the
number emitter into `out_value`; any other key fails with `invalid_number`. -/
def vnoNumberStructFields (tokNum : String)
    (parseNumber : String → Except Error JNumber) :
    List (String × GenValue) → Option ValueNoObj → Except Error (Option ValueNoObj)
  | [], out => .ok out
  | (key, value) :: rest, _out =>
    if key = tokNum then
      match vnoNumberValueEmitter parseNumber value with
      | .error e => .error e
      | .ok v => vnoNumberStructFields tokNum parseNumber rest (some v)
    else .error invalid_number

/-- `SerializeStruct::end` for the `SerializeMap::Number` state
(src/value_no_obj/ser.rs lines 661-664): `out_value.expect("number value was
not emitted")` — completing with no emitted field is the documented
programming-contract abort. -/
def vnoNumberStructEnd (out : Option ValueNoObj) : Except Error ValueNoObj :=
  match out with
  | some v => .ok v
  | none => .error (.panicExpect "number value was not emitted")

/-- The field loop for the `SerializeMap::RawValueNoObj` state
(src/value_no_obj/ser.rs lines 646-654). -/
def vnoRawStructFields (tokRaw : String)
    (fromStr : String → Except Error ValueNoObj) :
    List (String × GenValue) → Option ValueNoObj → Except Error (Option ValueNoObj)
  | [], out => .ok out
  | (key, value) :: rest, _out =>
    if key = tokRaw then
      match vnoRawValueEmitter fromStr value with
      | .error e => .error e
      | .ok v => vnoRawStructFields tokRaw fromStr rest (some v)
    else .error invalid_raw_value

/-- `SerializeStruct::end` for the `SerializeMap::RawValueNoObj` state
(src/value_no_obj/ser.rs lines 665-668). -/
def vnoRawStructEnd (out : Option ValueNoObj) : Except Error ValueNoObj :=
  match out with
  | some v => .ok v
  | none => .error (.panicExpect "raw value was not emitted")

/-- The map flow of the `ValueNoObj` builder (`serialize_map` returning the
`SerializeMap::Map` state, then `serialize_entry` per entry, then `end`,
src/value_no_obj/ser.rs lines 258-263 and 383-431): with no entry, `end`
fails; with an entry, `serialize_key` encodes the key through the
`MapKeySerializer` (whose failure propagates) and `serialize_value` then
fails — both failures are the invalid-type error naming the unsupported
Object shape. -/
def vnoSerializeMapEntries (fmt32 fmt64 : Rat → String)
    (entries : List (GenValue × GenValue)) : Except Error ValueNoObj :=
  match entries with
  | [] => .error (.invalidType .map "Object aren't supported")
  | (key, _value) :: _ =>
    match vnoMapKeySerialize fmt32 fmt64 key with
    | .error e => .error e
    | .ok _ => .error (.invalidType .map "Object aren't supported")

/-- The non-sentinel struct flow of the `ValueNoObj` builder
(`serialize_struct` falling through to `serialize_map`, then
`SerializeStruct::serialize_field` per field): a static string key always
encodes, so with a field the subsequent `serialize_value` fails, and with no
field `end` fails — the same invalid-type error in either case. -/
def vnoSerializeStructFields (fields : List (String × GenValue)) :
    Except Error ValueNoObj :=
  match fields with
  | [] => .error (.invalidType .map "Object aren't supported")
  | _ :: _ => .error (.invalidType .map "Object aren't supported")

/-- The external pieces the `ValueNoObj` builder consumes: the capability
flags, the sentinel tokens (`crate::number::TOKEN`, `crate::raw::TOKEN`),
the string-based `Number` parser, the from-text parse entry point, and the
two ryu formatters — none of which live under the given sources. -/
structure VnoEnv where
  ap : Bool
  raw : Bool
  tokNum : String
  tokRaw : String
  parseNumber : String → Except Error JNumber
  fromStr : String → Except Error ValueNoObj
  ryu32 : Rat → String
  ryu64 : Rat → String

mutual

/-- `to_value` through the `ValueNoObj` builder (`impl serde::Serializer for
Serializer`, src/value_no_obj/ser.rs lines 51-294, with the collection impls
at lines 317-381): one complete conversion of a generic input into a
`ValueNoObj`, entry point by entry point in source order. Sequences, tuples,
tuple structs and tuple enum variants collect their elements through
`SerializeSeq` / `SerializeTupleVariant` and end in an `Array`; newtype and
struct enum variants fail at their entry points; maps and non-sentinel
structs fail through the `SerializeMap` flow; sentinel-named structs route
to the dedicated emitters. -/
def toValueNoObj (env : VnoEnv) : GenValue → Except Error ValueNoObj
  | .bool value => .ok (.bool value)
  | .i64 value => .ok (.number (.fromI64 value))
  | .u64 value => .ok (.number (.fromU64 value))
  | .i128 value => vnoSerializeI128 env.ap value
  | .u128 value => vnoSerializeU128 env.ap value
  | .f32 value => .ok (vnoFromF32 value)
  | .f64 value => .ok (vnoFromF64 value)
  | .char value => .ok (.str (String.singleton value))
  | .str value => .ok (.str value)
  | .bytes value => .ok (.array (value.map fun b => .number (.fromU64 b)))
  | .unit => .ok .null
  | .unitStruct _ => .ok .null
  | .unitVariant _ _ variant => .ok (.str variant)
  | .newtypeStruct _ value => toValueNoObj env value
  | .newtypeVariant _ _ _ _ => .error (.invalidType .map "`Object` isn't supported")
  | .optNone => .ok .null
  | .optSome value => toValueNoObj env value
  | .seq xs => (toValueNoObjList env xs).map .array
  | .tuple xs => (toValueNoObjList env xs).map .array
  | .tupleStruct _ xs => (toValueNoObjList env xs).map .array
  | .tupleVariant _ _ _ xs => (toValueNoObjList env xs).map .array
  | .map entries => vnoSerializeMapEntries env.ryu32 env.ryu64 entries
  | .struct name fields =>
    if env.ap = true ∧ name = env.tokNum then
      vnoNumberStructFields env.tokNum env.parseNumber fields none >>= vnoNumberStructEnd
    else if env.raw = true ∧ name = env.tokRaw then
      vnoRawStructFields env.tokRaw env.fromStr fields none >>= vnoRawStructEnd
    else vnoSerializeStructFields fields
  | .structVariant _ _ _ _ => .error (.invalidType .newtypeStruct "`Object` isn't supported")

/-- The element loop of `SerializeSeq`/`SerializeTupleVariant` for the
`ValueNoObj` builder: each element is converted by `to_value` in order and
appended; the first failure propagates. -/
def toValueNoObjList (env : VnoEnv) : List GenValue → Except Error (List ValueNoObj)
  | [] => .ok []
  | x :: xs =>
    match toValueNoObj env x with
    | .error e => .error e
    | .ok v =>
      match toValueNoObjList env xs with
      | .error e => .error e
      | .ok vs => .ok (v :: vs)

end

/-! ## ValueNoObjOrArr builder: enum variant states -/

/-- The collection state `SerializeStructVariant` of the `ValueNoObjOrArr`
builder (src/value_no_obj_or_arr/ser.rs lines 290-293): the variant name and
a map of collected fields. -/
structure VnoaSerializeStructVariantState where
  name : String
  map : List (String × ValueNoObjOrArr)
deriving DecidableEq

/-- `Serializer::serialize_struct_variant` for the `ValueNoObjOrArr` builder
(src/value_no_obj_or_arr/ser.rs lines 249-260): returns
`Ok(SerializeStructVariant { name, map: Map::new() })`. The sources provide
no `impl serde::ser::SerializeStructVariant` completing this state. -/
def vnoaSerializeStructVariant (variant : String) (_len : Nat) :
    Except Error VnoaSerializeStructVariantState :=
  .ok ⟨variant, []⟩

/-- Modelled from the spec: src/value_no_obj_or_arr/ser.rs declares the
associated type `SerializeTupleVariant` but holds no trait impl completing
that state (no `serialize_field` / `end` with `Ok = ValueNoObjOrArr`), so
the completion is not under src/; spec section 4.2 fixes it — tuple enum
variants "fail outright" for this builder — as an invalid-type failure. -/
def vnoaTupleVariantComplete (_st : VnoaSerializeTupleVariant)
    (_fields : List GenValue) : Except Error ValueNoObjOrArr :=
  .error (.invalidType .map "`Object` isn't supported")

/-- Modelled from the spec: the matching completion for the struct-variant
state, likewise absent from src/value_no_obj_or_arr/ser.rs; spec section 4.2
says struct enum variants fail outright for this builder. -/
def vnoaStructVariantComplete (_st : VnoaSerializeStructVariantState)
    (_fields : List (String × GenValue)) : Except Error ValueNoObjOrArr :=
  .error (.invalidType .map "`Object` isn't supported")

/-- One complete tuple-enum-variant conversion through the `ValueNoObjOrArr`
builder: the entry point (from src/) followed by the spec-modelled
completion. -/
def vnoaSerializeTupleVariantFull (variant : String) (fields : List GenValue) :
    Except Error ValueNoObjOrArr :=
  match vnoaSerializeTupleVariant variant fields.length with
  | .error e => .error e
  | .ok st => vnoaTupleVariantComplete st fields

/-- One complete struct-enum-variant conversion through the `ValueNoObjOrArr`
builder: the entry point (from src/) followed by the spec-modelled
completion. -/
def vnoaSerializeStructVariantFull (variant : String)
    (fields : List (String × GenValue)) : Except Error ValueNoObjOrArr :=
  match vnoaSerializeStructVariant variant fields.length with
  | .error e => .error e
  | .ok st => vnoaStructVariantComplete st fields

/-! ## Theorems -/

/-- C9: for every input string `s` and every choice of capability flags and
sentinel tokens, the Key Classifier's borrowed-string path (`visit_str`) and
its owned-string path (`visit_string`) return the same classification, both
always succeed, and on a non-sentinel input both return the ordinary-key
class carrying exactly `s`. -/
theorem keyClassifier_paths_agree (ap raw : Bool) (tokNum tokRaw s : String) :
    keyClassifierVisitStr ap raw tokNum tokRaw s =
      keyClassifierVisitString ap raw tokNum tokRaw s
    ∧ (∃ k, keyClassifierVisitStr ap raw tokNum tokRaw s = .ok k)
    ∧ (¬(ap = true ∧ s = tokNum) → ¬(raw = true ∧ s = tokRaw) →
      keyClassifierVisitStr ap raw tokNum tokRaw s = .ok (.map s)) := by
  refine ⟨rfl, ?_, ?_⟩
  · unfold keyClassifierVisitStr
    split
    · exact ⟨_, rfl⟩
    · split
      · exact ⟨_, rfl⟩
      · exact ⟨_, rfl⟩
  · intro h1 h2
    unfold keyClassifierVisitStr
    rw [if_neg h1, if_neg h2]

/-- Witness for C9: the classifier paths agree on the concrete ordinary key
"hello" with both capabilities on and distinct concrete tokens. -/
theorem keyClassifier_paths_agree_witness :
    keyClassifierVisitStr true true "tokN" "tokR" "hello" =
      keyClassifierVisitString true true "tokN" "tokR" "hello"
    ∧ keyClassifierVisitStr true true "tokN" "tokR" "hello" = .ok (.map "hello") := by
  obtain ⟨h1, _, h3⟩ := keyClassifier_paths_agree true true "tokN" "tokR" "hello"
  exact ⟨h1, h3 (by decide) (by decide)⟩

/-- C10: deserializing a generic map input with zero entries into
`ValueNoObjOrArr` always takes the `None` arm of `visit_map` and returns the
invalid-type error, for every choice of flags, tokens and sentinel payload
readers; an empty map never produces a value of the type. -/
theorem vnoaVisitMap_empty_fails (ap raw : Bool) (tokNum tokRaw : String)
    (readNumber readRawValue : GenValue → Except Error ValueNoObjOrArr) :
    vnoaVisitMap ap raw tokNum tokRaw readNumber readRawValue [] =
      .error (.invalidType (.other "") "must provide non-array | non-object") :=
  rfl

/-- C8: requesting the enum kind from the `ValueNoObjOrArr` value-backed
deserializer on a `String` node yields the string itself as a unit-variant
identifier with no payload (and `unit_variant` on that no-payload state
succeeds); on a `Null`, `Bool` or `Number` node it fails with the
invalid-type mismatch naming the observed shape. -/
theorem vnoaDeserializeEnum_string_only (s : String) (b : Bool) (n : JNumber) :
    vnoaDeserializeEnum (.str s) = .ok (s, none)
    ∧ vnoaUnitVariant none = .ok ()
    ∧ vnoaDeserializeEnum .null = .error (.invalidType .unit "string or map")
    ∧ vnoaDeserializeEnum (.bool b) =
      .error (.invalidType (.bool b) "string or map")
    ∧ vnoaDeserializeEnum (.number n) =
      .error (.invalidType n.unexpected "string or map") :=
  ⟨rfl, rfl, rfl, rfl, rfl⟩

/-- C5: every float-to-value conversion in scope (the `From<f64>`/`From<f32>`
conversions, the builders' `serialize_f64`/`serialize_f32`, and the
deserialization visitors' `visit_f64`) yields `Null` when the float is NaN
or infinite and a `Number` node (carrying the finite value) when it is
finite; a non-finite float never produces a `Number`. -/
theorem float_conversions_finite_gate (x : F64) :
    (x.isFinite = false →
      vnoaFromF64 x = .null ∧ vnoaFromF32 x = .null ∧
      vnoFromF64 x = .null ∧ vnoFromF32 x = .null ∧
      vnoaSerializeF64 x = .ok .null ∧ vnoaSerializeF32 x = .ok .null ∧
      vnoSerializeF64 x = .ok .null ∧ vnoSerializeF32 x = .ok .null ∧
      vnoaVisitF64 x = .ok .null ∧ scalarVisitF64 x = .ok .null)
    ∧ (x.isFinite = true → ∃ q, x = .finite q ∧
      vnoaFromF64 x = .number (.float q) ∧ vnoaFromF32 x = .number (.float q) ∧
      vnoFromF64 x = .number (.float q) ∧ vnoFromF32 x = .number (.float q) ∧
      vnoaSerializeF64 x = .ok (.number (.float q)) ∧
      vnoSerializeF64 x = .ok (.number (.float q)) ∧
      vnoaVisitF64 x = .ok (.number (.float q)) ∧
      scalarVisitF64 x = .ok (.number (.float q))) := by
  cases x <;>
    simp [F64.isFinite, vnoaFromF64, vnoaFromF32, vnoFromF64, vnoFromF32,
      vnoaSerializeF64, vnoaSerializeF32, vnoSerializeF64, vnoSerializeF32,
      vnoaVisitF64, scalarVisitF64, JNumber.fromF64, JNumber.fromF32]

/-- Witness for C5: the NaN input converts to `Null` and the finite input
`1.5` converts to the `Number` holding it. -/
theorem float_conversions_finite_gate_witness :
    vnoaFromF64 .nan = .null
    ∧ vnoaFromF64 (.finite (3 / 2)) = .number (.float (3 / 2)) := by
  have h1 := (float_conversions_finite_gate .nan).1 rfl
  have h2 := (float_conversions_finite_gate (.finite (3 / 2))).2 rfl
  obtain ⟨q, hq, hconv, _⟩ := h2
  injection hq with hq
  subst hq
  exact ⟨h1.1, hconv⟩

/-- C6: without the arbitrary-precision capability, serializing an `i128`
through either builder succeeds with a `Number` exactly when the value fits
the `u64` or `i64` range, and a `u128` exactly when it fits the `u64` range;
outside those ranges both fail with `NumberOutOfRange`. With the capability
both always succeed with a `Number`. -/
theorem serialize128_range_gate (v : Int) (u : Nat) :
    (((0 ≤ v ∧ v < 2 ^ 64) ∨ (-2 ^ 63 ≤ v ∧ v < 2 ^ 63)) →
      ∃ n, vnoSerializeI128 false v = .ok (.number n) ∧
        vnoaSerializeI128 false v = .ok (.number n))
    ∧ (¬((0 ≤ v ∧ v < 2 ^ 64) ∨ (-2 ^ 63 ≤ v ∧ v < 2 ^ 63)) →
      vnoSerializeI128 false v = .error (.code .numberOutOfRange) ∧
      vnoaSerializeI128 false v = .error (.code .numberOutOfRange))
    ∧ (∃ n, vnoSerializeI128 true v = .ok (.number n) ∧
      vnoaSerializeI128 true v = .ok (.number n))
    ∧ (u < 2 ^ 64 →
      ∃ n, vnoSerializeU128 false u = .ok (.number n) ∧
        vnoaSerializeU128 false u = .ok (.number n))
    ∧ (2 ^ 64 ≤ u →
      vnoSerializeU128 false u = .error (.code .numberOutOfRange) ∧
      vnoaSerializeU128 false u = .error (.code .numberOutOfRange))
    ∧ (∃ n, vnoSerializeU128 true u = .ok (.number n) ∧
      vnoaSerializeU128 true u = .ok (.number n)) := by
  refine ⟨?_, ?_, ?_, ?_, ?_, ?_⟩
  · intro h
    simp only [vnoSerializeI128, vnoaSerializeI128, Bool.false_eq_true, if_false]
    split_ifs with h1 h2
    · exact ⟨_, rfl, rfl⟩
    · exact ⟨_, rfl, rfl⟩
    · exfalso
      omega
  · intro h
    simp only [vnoSerializeI128, vnoaSerializeI128, Bool.false_eq_true, if_false]
    split_ifs with h1 h2
    · exfalso
      omega
    · exfalso
      omega
    · exact ⟨rfl, rfl⟩
  · exact ⟨_, rfl, rfl⟩
  · intro h
    simp only [vnoSerializeU128, vnoaSerializeU128, Bool.false_eq_true, if_false]
    rw [if_pos h, if_pos h]
    exact ⟨_, rfl, rfl⟩
  · intro h
    have h1 : ¬ u < 2 ^ 64 := by omega
    simp only [vnoSerializeU128, vnoaSerializeU128, Bool.false_eq_true, if_false]
    rw [if_neg h1, if_neg h1]
    exact ⟨rfl, rfl⟩
  · exact ⟨_, rfl, rfl⟩

/-- Witness for C6: `2^64` is outside both 64-bit ranges, so serializing it
as an `i128` without the capability fails with `NumberOutOfRange`. -/
theorem serialize128_range_gate_witness :
    ¬(((0:Int) ≤ 2 ^ 64 ∧ (2 ^ 64 : Int) < 2 ^ 64) ∨
      (-2 ^ 63 ≤ (2 ^ 64 : Int) ∧ (2 ^ 64 : Int) < 2 ^ 63))
    ∧ vnoSerializeI128 false (2 ^ 64) = .error (.code .numberOutOfRange) :=
  ⟨by omega, ((serialize128_range_gate (2 ^ 64) 0).2.1 (by omega)).1⟩

/-- C7: a float used as a map/struct key renders, when finite, to exactly
the output of the shortest-round-trip decimal formatter the code calls
(`ryu::Buffer::format_finite`, the parameter `fmt`) on its value, and fails
with the `FloatKeyMustBeFinite` error when NaN or infinite — in both
builders' Map-Key Encoders and for both float widths. -/
theorem mapKeySerializeF64_finite_gate (fmt : Rat → String) (x : F64) :
    (x.isFinite = true → ∃ q, x = .finite q ∧
      vnoMapKeySerializeF64 fmt x = .ok (fmt q) ∧
      vnoaMapKeySerializeF64 fmt x = .ok (fmt q) ∧
      vnoMapKeySerializeF32 fmt x = .ok (fmt q))
    ∧ (x.isFinite = false →
      vnoMapKeySerializeF64 fmt x = .error (.code .floatKeyMustBeFinite) ∧
      vnoaMapKeySerializeF64 fmt x = .error (.code .floatKeyMustBeFinite) ∧
      vnoMapKeySerializeF32 fmt x = .error (.code .floatKeyMustBeFinite)) := by
  cases x <;>
    simp [F64.isFinite, vnoMapKeySerializeF64, vnoaMapKeySerializeF64,
      vnoMapKeySerializeF32]

/-- Witness for C7: with the formatter that renders `1.5` as "1.5", the
finite key `1.5` produces exactly "1.5", and the NaN key fails. -/
theorem mapKeySerializeF64_finite_gate_witness :
    vnoMapKeySerializeF64 (fun _ => "1.5") (.finite (3 / 2)) = .ok "1.5"
    ∧ vnoMapKeySerializeF64 (fun _ => "1.5") .nan =
      .error (.code .floatKeyMustBeFinite) := by
  have h1 := (mapKeySerializeF64_finite_gate (fun _ => "1.5") (.finite (3 / 2))).1 rfl
  have h2 := (mapKeySerializeF64_finite_gate (fun _ => "1.5") .nan).2 rfl
  obtain ⟨q, hq, hf, _⟩ := h1
  exact ⟨hf, h2.1⟩

/-- C3 (the code, evaluated at the failing inputs): the Scalar-only
builder's `serialize_seq`, `serialize_tuple` and `serialize_tuple_struct`
entry points return `Ok` with a fresh collection state — they begin element
collection for every length instead of failing — and `serialize_seq` never
returns an error for any length. -/
theorem vnoaSerializeSeq_begins_collection :
    vnoaSerializeSeq (some 3) = .ok ⟨3, []⟩
    ∧ vnoaSerializeTuple 2 = .ok ⟨2, []⟩
    ∧ vnoaSerializeTupleStruct "T" 4 = .ok ⟨4, []⟩
    ∧ ∀ (len : Option Nat) (e : Error), vnoaSerializeSeq len ≠ .error e :=
  ⟨rfl, rfl, rfl, fun _ _ h => by simp [vnoaSerializeSeq] at h⟩

/-- C1 (the code, evaluated at the failing input): the `ScalarValue`
Serialize binding routes every `Number` node through `serialize_i32`, so for
the legal node `Number(4294967296)` (a width beyond 32 bits) the identity
round trip through the Scalar shape's value builder cannot return an equal
tree: whatever `i32` the missing `Number`-to-`i32` conversion produces, the
rebuilt number lies in the 32-bit signed range. -/
theorem scalarValue_number_roundtrip_narrows (conv : JNumber → Int)
    (h1 : -2 ^ 31 ≤ conv (.posInt 4294967296))
    (h2 : conv (.posInt 4294967296) < 2 ^ 31) :
    scalarValueSerializeVnoa conv (.number (.posInt 4294967296)) ≠
      .ok (scalarToVnoa (.number (.posInt 4294967296))) := by
  intro h
  simp only [scalarValueSerializeVnoa, vnoaSerializeI32, vnoaSerializeI64,
    scalarToVnoa, Except.ok.injEq, ValueNoObjOrArr.number.injEq] at h
  unfold JNumber.fromI64 at h
  split at h
  · simp only [JNumber.posInt.injEq] at h
    omega
  · exact absurd h (by simp)

/-- Witness for C1: the constant zero narrowing lies in the `i32` range, and
under it the round trip of `Number(4294967296)` indeed differs from the
original node. -/
theorem scalarValue_number_roundtrip_narrows_witness :
    (-2 ^ 31 ≤ (0 : Int) ∧ (0 : Int) < 2 ^ 31)
    ∧ scalarValueSerializeVnoa (fun _ => 0) (.number (.posInt 4294967296)) ≠
      .ok (scalarToVnoa (.number (.posInt 4294967296))) :=
  ⟨by omega,
    scalarValue_number_roundtrip_narrows (fun _ => 0) (by decide) (by decide)⟩

/-- C2 (the code, evaluated at the failing input): deserializing the
single-entry generic map with the ordinary first key "a" into `ScalarValue`
takes the `KeyClass::Map` arm and returns `Ok(ScalarValue::Object({...}))` —
an object-carrying result (through a variant the `ScalarValue` enum does not
declare), never one of the declared scalar values. -/
theorem scalarVisitMap_ordinary_key_builds_object :
    scalarVisitMap false false "tokN" "tokR"
        (fun _ => .error invalid_number) (fun _ => .error invalid_raw_value)
        [("a", .bool true)] = .ok (.object [("a", .bool true)])
    ∧ ∀ v : ScalarValue,
      scalarVisitMap false false "tokN" "tokR"
          (fun _ => .error invalid_number) (fun _ => .error invalid_raw_value)
          [("a", .bool true)] ≠ .ok (.value v) :=
  ⟨rfl, fun v h => by
    simp [scalarVisitMap, keyClassifierVisitStr] at h⟩

/-- C4 counterexample: through the Scalar-or-Array builder, serializing the
tuple enum variant `E::V(true)` does not fail — the conversion returns the
Value Node `Array([Bool(true)])`. -/
theorem toValueNoObj_tupleVariant_returns_value :
    toValueNoObj ⟨false, false, "tokN", "tokR",
        fun _ => .error invalid_number, fun _ => .error invalid_raw_value,
        fun _ => "", fun _ => ""⟩
      (.tupleVariant "E" 0 "V" [.bool true]) = .ok (.array [.bool true]) :=
  rfl

/-- C4 (amended): serializing any struct enum variant through the
Scalar-or-Array builder fails with the invalid-type error; a tuple enum
variant there instead succeeds whenever all its fields convert, yielding the
`Array` of the converted fields with the variant name discarded; through the
Scalar-only builder both variant kinds fail (entry from src/, completion
modelled from the spec, being absent from the sources). -/
theorem enum_variant_builder_behavior (env : VnoEnv) (name : String)
    (idx : Nat) (variant : String) (fields : List (String × GenValue))
    (tfields : List GenValue) (vs : List ValueNoObj)
    (h : toValueNoObjList env tfields = .ok vs) :
    toValueNoObj env (.structVariant name idx variant fields) =
      .error (.invalidType .newtypeStruct "`Object` isn't supported")
    ∧ toValueNoObj env (.tupleVariant name idx variant tfields) = .ok (.array vs)
    ∧ (∃ e, vnoaSerializeTupleVariantFull variant tfields = .error e)
    ∧ (∃ e, vnoaSerializeStructVariantFull variant fields = .error e) := by
  refine ⟨rfl, ?_, ⟨_, rfl⟩, ⟨_, rfl⟩⟩
  show (toValueNoObjList env tfields).map ValueNoObj.array = .ok (.array vs)
  rw [h]
  rfl

/-- Witness for C4: the single field `true` converts, so the tuple variant
`E::V(true)` through the Scalar-or-Array builder yields `Array([Bool(true)])`
while the struct variant fails. -/
theorem enum_variant_builder_behavior_witness :
    toValueNoObjList ⟨false, false, "tokN", "tokR",
        fun _ => .error invalid_number, fun _ => .error invalid_raw_value,
        fun _ => "", fun _ => ""⟩ [.bool true] = .ok [.bool true]
    ∧ toValueNoObj ⟨false, false, "tokN", "tokR",
        fun _ => .error invalid_number, fun _ => .error invalid_raw_value,
        fun _ => "", fun _ => ""⟩
      (.structVariant "E" 0 "V" [("f", .bool true)]) =
      .error (.invalidType .newtypeStruct "`Object` isn't supported") :=
  ⟨rfl,
    (enum_variant_builder_behavior ⟨false, false, "tokN", "tokR",
        fun _ => .error invalid_number, fun _ => .error invalid_raw_value,
        fun _ => "", fun _ => ""⟩ "E" 0 "V" [("f", .bool true)]
      [.bool true] [.bool true] rfl).1⟩

end SerdeJsonExt
